import Mathlib

/-!
Shallow embedding of the Doc-Summarizer backend pipeline
(src/backend/server.js, current revision: the one deployed behind the
frontend in src/frontend/src/App.js, with the guarded cleanup and the
fallback-returning summarization client).

External effects are modelled as explicit oracles:
  * a PDF extractor and an image extractor, each of type
    String → Except String String (file path to extracted text, or a
    thrown error message);
  * the generative-AI call, of type String → Except String String
    (prompt to response text, or a thrown error message).
The file system relevant to one request is reduced to a deletion
counter: the handler returns the response together with the number of
times the stored upload was unlinked on that control path (the stored
file exists when the handler starts, and only the handler touches it).
JS strings are modelled as Lean strings at the character level.
-/

namespace DocSummarizer

set_option maxRecDepth 40000

/-- Model of JS String.prototype.toLowerCase restricted to the ASCII
range (file extensions and MIME strings are ASCII). -/
def toLowerAscii (s : String) : String :=
  String.mk (s.data.map Char.toLower)

/-- Model of JS String.prototype.trim: strip leading and trailing
whitespace characters. -/
def jsTrim (s : String) : String :=
  String.mk
    (((s.data.dropWhile Char.isWhitespace).reverse.dropWhile Char.isWhitespace).reverse)

/-- The extension of a basename as a character list: the part from the
last dot (inclusive); empty when there is no dot, or when the only dot
is the leading character of the basename. -/
def extnameChars (base : List Char) : List Char :=
  let afterDot := (base.reverse.takeWhile (fun c => c ≠ '.')).reverse
  if afterDot.length = base.length then []
  else if base.length = afterDot.length + 1 && base.head? == some '.' then []
  else '.' :: afterDot

/-- Model of node path.extname for ordinary POSIX file names: the part
of the basename (the segment after the last slash) from its last dot. -/
def extname (p : String) : String :=
  String.mk (extnameChars ((p.data.reverse.takeWhile (fun c => c ≠ '/')).reverse))

/-- Boolean test for pat occurring as a contiguous substring of s,
modelling the JS regex test of the alternation jpeg|jpg|png|pdf applied
to one alternative: an unanchored regex matches iff the pattern occurs
somewhere in the subject. -/
def substrTest (pat s : String) : Bool :=
  decide (pat.data <:+: s.data)

/-- The multer fileFilter regex allowedTypes = jpeg|jpg|png|pdf as a
predicate: true iff some alternative occurs in the string. -/
def regexAllowedTypes (s : String) : Bool :=
  substrTest "jpeg" s || substrTest "jpg" s || substrTest "png" s || substrTest "pdf" s

/-- An uploaded file as multer presents it to the handler: declared
original name, declared MIME type, byte size, and the storage path of
the transient copy in uploads/. -/
structure UploadedFile where
  originalname : String
  mimetype : String
  size : Nat
  path : String
deriving DecidableEq, Repr

/-- server.js fileFilter: accept iff the regex matches the declared MIME
type and also matches the lowercased extension of the original name
(the conjunction mimetype and extname of the source). -/
def fileFilter (f : UploadedFile) : Bool :=
  regexAllowedTypes f.mimetype && regexAllowedTypes (toLowerAscii (extname f.originalname))

/-- The multer limits.fileSize value: 10 * 1024 * 1024 bytes. -/
def MAX_FILE_SIZE : Nat := 10 * 1024 * 1024

/-- Overall multer acceptance for a candidate upload: the fileFilter
accepts it and it does not exceed the configured size limit (a larger
file is aborted with LIMIT_FILE_SIZE while streaming). -/
def multerAccepts (f : UploadedFile) : Bool :=
  fileFilter f && decide (f.size ≤ MAX_FILE_SIZE)

/-- Modelled from the spec: the Intake Validator contract as the spec
words it — accept exactly the declared media types application/pdf,
image/jpeg, image/png with byte size at most 10 MiB. Stated only to be
compared with multerAccepts, which is the embedding of the code. -/
def specIntakeAccepts (mediaType : String) (size : Nat) : Bool :=
  (mediaType == "application/pdf" || mediaType == "image/jpeg" || mediaType == "image/png")
    && decide (size ≤ 10 * 1024 * 1024)

/-- The prompt selected by generateSummary for a requested length class
(the switch over length in server.js). -/
def promptFor (length text : String) : String :=
  match length with
  | "short" => "Summarize in 2-3 sentences:\n\n" ++ text
  | "medium" => "Summarize in 1-2 paragraphs:\n\n" ++ text
  | "long" => "Summarize in 3-4 paragraphs:\n\n" ++ text
  | _ => "Summarize this text:\n\n" ++ text

/-- The fixed string generateSummary returns from its catch block. -/
def fallbackMessage : String :=
  "AI service is currently unavailable. Please try again later."

/-- generateSummary: build the length-specific prompt, invoke the model
once, return its text; on a thrown failure of the external call return
fallbackMessage instead of raising (the catch block). The external call
is the oracle callModel. -/
def generateSummary (callModel : String → Except String String)
    (text length : String) : String :=
  match callModel (promptFor length text) with
  | Except.ok r => r
  | Except.error _ => fallbackMessage

/-- The originalText preview built in the success response:
extractedText.substring(0, 1000) + (extractedText.length > 1000 ? dots : empty),
with the JS index arithmetic carried out on the character list. -/
def truncPreview (t : String) : String :=
  String.mk (t.data.take 1000) ++ (if 1000 < t.length then "..." else "")

/-- The media types of the data model. -/
inductive MediaType where
  | pdf
  | jpeg
  | png
deriving DecidableEq, Repr

/-- The media type a lowercased file extension denotes, if any: the
abstraction the pipeline branches on (the code realises the data-model
media type of an upload by its file extension). -/
def mediaTypeOfExt (ext : String) : Option MediaType :=
  if ext = ".pdf" then some MediaType.pdf
  else if ext = ".jpg" ∨ ext = ".jpeg" then some MediaType.jpeg
  else if ext = ".png" then some MediaType.png
  else none

/-- The extraction dispatch of the handler: extension ".pdf" goes to the
PDF extractor, ".jpg"/".jpeg"/".png" to the image extractor, anything
else falls through to the Unsupported file type response (none). -/
def dispatchExtract (pdfE imgE : String → Except String String)
    (ext filePath : String) : Option (Except String String) :=
  if ext = ".pdf" then some (pdfE filePath)
  else if ext = ".jpg" ∨ ext = ".jpeg" ∨ ext = ".png" then some (imgE filePath)
  else none

/-- The success payload of the upload route: originalText preview, the
summaries object as the ordered key-value list of its literal, the
original file name and byte size. -/
structure ProcessingResult where
  originalText : String
  summaries : List (String × String)
  fileName : String
  fileSize : Nat
deriving DecidableEq, Repr

/-- A response of the upload route: the success JSON (with success set
to true) or a failure JSON with its HTTP status and error string. -/
inductive Response where
  | success (r : ProcessingResult)
  | failure (status : Nat) (error : String)
deriving DecidableEq, Repr

/-- The tail of the handler after extraction produced extractedText: the
empty-text guard (an early return that performs no cleanup), then the
fan-out of the three generateSummary calls, the guarded unlink of the
stored file, and the success response. Second component: how many times
the stored upload was unlinked. -/
def afterExtract (callModel : String → Except String String)
    (file : UploadedFile) (extractedText : String) : Response × Nat :=
  if jsTrim extractedText = "" then
    (Response.failure 400 "No text could be extracted from the document", 0)
  else
    (Response.success
      ⟨truncPreview extractedText,
        [("short", generateSummary callModel extractedText "short"),
         ("medium", generateSummary callModel extractedText "medium"),
         ("long", generateSummary callModel extractedText "long")],
        file.originalname, file.size⟩, 1)

/-- The upload route handler. Oracles pdfE, imgE, callModel stand for
pdf-parse, Tesseract and the Gemini call; summaryLength is the optional
request body field, read with default medium and never used further.
An extractor error is the thrown exception reaching the catch block,
which unlinks the stored file and answers 500. The unsupported-type and
empty-text branches are early returns that skip cleanup. -/
def handleUpload (pdfE imgE callModel : String → Except String String)
    (reqFile : Option UploadedFile) (summaryLength : Option String) : Response × Nat :=
  match reqFile with
  | none => (Response.failure 400 "No file uploaded", 0)
  | some file =>
    let _summaryLen := summaryLength.getD "medium"
    match dispatchExtract pdfE imgE (toLowerAscii (extname file.originalname)) file.path with
    | none => (Response.failure 400 "Unsupported file type", 0)
    | some (Except.error e) =>
        (Response.failure 500 ("Failed to process document: " ++ e), 1)
    | some (Except.ok extractedText) => afterExtract callModel file extractedText

/-- A file system restricted to existence of paths. -/
def FileSys : Type := String → Bool

/-- fs.existsSync on the existence model. -/
def existsSync (fsys : FileSys) (p : String) : Bool := fsys p

/-- fs.unlinkSync: removes the path, raising ENOENT when it is absent. -/
def unlinkSync (fsys : FileSys) (p : String) : Except String FileSys :=
  if fsys p then
    Except.ok (fun q => if q = p then false else fsys q)
  else
    Except.error ("ENOENT: no such file or directory, unlink " ++ p)

/-- The Resource Cleanup Manager of the current revision: the guarded
deletion statement if fs.existsSync(filePath) then fs.unlinkSync(filePath)
used on both the success path and the catch path. -/
def cleanupFile (fsys : FileSys) (p : String) : Except String FileSys :=
  if existsSync fsys p then unlinkSync fsys p else Except.ok fsys

/-! Concrete oracles and inputs used to exercise the model. -/

/-- A PDF extractor oracle that yields a short fixed text. -/
def pdfE0 : String → Except String String := fun _ => Except.ok "hello world"

/-- An image extractor oracle that yields a short fixed text. -/
def imgE0 : String → Except String String := fun _ => Except.ok "image text"

/-- An image extractor oracle that yields whitespace-only text, as OCR
does on a blank scan. -/
def imgBlank : String → Except String String := fun _ => Except.ok "   "

/-- A generative-AI oracle for which every call succeeds. -/
def aiAllOk : String → Except String String := fun _ => Except.ok "ok"

/-- A generative-AI oracle for which every call fails. -/
def aiNetFail : String → Except String String := fun _ => Except.error "network"

/-- A generative-AI oracle failing exactly on the long prompt for the
text hello world, succeeding on the other two length classes. -/
def aiLongFails : String → Except String String := fun p =>
  if p = promptFor "long" "hello world" then Except.error "quota"
  else if p = promptFor "short" "hello world" then Except.ok "SS"
  else Except.ok "MM"

/-- A small stored PDF upload. -/
def file0 : UploadedFile := ⟨"a.pdf", "application/pdf", 5, "uploads/document-1"⟩

/-- A stored blank scanned image upload. -/
def blankPng : UploadedFile := ⟨"scan.png", "image/png", 4096, "uploads/document-2"⟩

/-- A stored upload with an extension outside the dispatch table. -/
def gifFile : UploadedFile := ⟨"anim.gif", "image/gif", 2048, "uploads/document-4"⟩

/-- A text of 1001 characters. -/
def longText : String := String.mk (List.replicate 1001 'a')

/-- A PDF extractor oracle yielding the 1001-character text. -/
def pdfLong : String → Except String String := fun _ => Except.ok longText

/-- A stored two-megabyte PDF upload. -/
def bigPdf : UploadedFile := ⟨"big.pdf", "application/pdf", 2097152, "uploads/document-3"⟩

/-! Helper lemmas shared by the claim theorems. -/

/-- Computation of the handler on the successful PDF path: a PDF
extension, extraction succeeding with non-blank text. The stored file is
unlinked exactly once and the success record is assembled from the
preview and the three generateSummary results. -/
theorem upload_pdf_run (pdfE imgE callModel : String → Except String String)
    (file : UploadedFile) (sl : Option String) (text : String)
    (hext : toLowerAscii (extname file.originalname) = ".pdf")
    (hpdf : pdfE file.path = Except.ok text)
    (ht : jsTrim text ≠ "") :
    handleUpload pdfE imgE callModel (some file) sl =
      (Response.success ⟨truncPreview text,
        [("short", generateSummary callModel text "short"),
         ("medium", generateSummary callModel text "medium"),
         ("long", generateSummary callModel text "long")],
        file.originalname, file.size⟩, 1) := by
  simp only [handleUpload, dispatchExtract]
  rw [hext]
  simp [hpdf, afterExtract, ht]

/-- Inversion of the handler on success: a success response can only
arise from a stored file and a non-blank extracted text, the record is
the assembled one and the stored file was unlinked exactly once. -/
theorem handleUpload_success_shape (pdfE imgE callModel : String → Except String String)
    (reqFile : Option UploadedFile) (sl : Option String) (r : ProcessingResult) (n : Nat)
    (h : handleUpload pdfE imgE callModel reqFile sl = (Response.success r, n)) :
    ∃ file text, reqFile = some file ∧
      r = ⟨truncPreview text,
        [("short", generateSummary callModel text "short"),
         ("medium", generateSummary callModel text "medium"),
         ("long", generateSummary callModel text "long")],
        file.originalname, file.size⟩ ∧ n = 1 := by
  cases reqFile with
  | none => simp [handleUpload] at h
  | some file =>
    simp only [handleUpload] at h
    rcases hd : dispatchExtract pdfE imgE (toLowerAscii (extname file.originalname)) file.path
      with _ | res
    · rw [hd] at h; simp at h
    · rw [hd] at h
      cases res with
      | error e => simp at h
      | ok text =>
        simp only [afterExtract] at h
        by_cases ht : jsTrim text = ""
        · rw [if_pos ht] at h; simp at h
        · rw [if_neg ht] at h
          simp only [Prod.mk.injEq, Response.success.injEq] at h
          exact ⟨file, text, rfl, h.1.symm, h.2.symm⟩

/-- The preview never exceeds 1000 characters plus the three-character
ellipsis marker. -/
theorem truncPreview_length_le (t : String) : (truncPreview t).length ≤ 1003 := by
  unfold truncPreview
  rw [String.length_append]
  have h1 : (String.mk (t.data.take 1000)).length ≤ 1000 := by
    simp [List.length_take]
  have h2 : (if 1000 < t.length then "..." else "").length ≤ 3 := by
    split <;> decide
  omega

/-! Claim theorems. -/

/-- Claim C1: the claim says that when extraction yields whitespace-only
text the failure response is emitted and the stored file is deleted. The
code emits the empty-text failure response through an early return that
never reaches any cleanup call, so the stored copy is unlinked zero
times on that exit path: for the blank scanned image the handler answers
the 400 empty-text failure with a deletion count of 0, not 1. -/
theorem cleanup_skipped_on_empty_text :
    handleUpload pdfE0 imgBlank aiAllOk (some blankPng) none =
      (Response.failure 400 "No text could be extracted from the document", 0) := by
  decide

/-- Claim C2: for every input text and every length class, if the
external generative call fails then generateSummary does not propagate
the failure; it returns the fixed fallback string fallbackMessage,
which does not depend on the length class. -/
theorem generateSummary_fallback_on_failure
    (callModel : String → Except String String) (text length err : String)
    (h : callModel (promptFor length text) = Except.error err) :
    generateSummary callModel text length = fallbackMessage := by
  unfold generateSummary
  rw [h]

/-- Witness for claim C2 at a concrete failing oracle. -/
theorem generateSummary_fallback_on_failure_witness :
    generateSummary aiNetFail "hello" "long" = fallbackMessage :=
  generateSummary_fallback_on_failure aiNetFail "hello" "long" "network" rfl

/-- Claim C3: when the long summarization call fails while short and
medium succeed, the handler still answers with the success response, the
two real summaries and the fallback string for long, and the stored
file is cleaned up once. -/
theorem fanout_isolation_long_failure
    (pdfE imgE callModel : String → Except String String)
    (file : UploadedFile) (sl : Option String) (text s m err : String)
    (hext : toLowerAscii (extname file.originalname) = ".pdf")
    (hpdf : pdfE file.path = Except.ok text)
    (ht : jsTrim text ≠ "")
    (hs : callModel (promptFor "short" text) = Except.ok s)
    (hm : callModel (promptFor "medium" text) = Except.ok m)
    (hl : callModel (promptFor "long" text) = Except.error err) :
    handleUpload pdfE imgE callModel (some file) sl =
      (Response.success ⟨truncPreview text,
        [("short", s), ("medium", m), ("long", fallbackMessage)],
        file.originalname, file.size⟩, 1) := by
  rw [upload_pdf_run pdfE imgE callModel file sl text hext hpdf ht]
  unfold generateSummary
  rw [hs, hm, hl]

/-- Witness for claim C3: a concrete run in which only the long call
fails. -/
theorem fanout_isolation_long_failure_witness :
    handleUpload pdfE0 imgE0 aiLongFails (some file0) none =
      (Response.success ⟨truncPreview "hello world",
        [("short", "SS"), ("medium", "MM"), ("long", fallbackMessage)],
        "a.pdf", 5⟩, 1) :=
  fanout_isolation_long_failure pdfE0 imgE0 aiLongFails file0 none
    "hello world" "SS" "MM" "quota" (by decide) rfl (by decide)
    rfl rfl rfl

/-- Claim C4: the truncation law of the preview. Text of at most 1000
characters is returned verbatim with no ellipsis marker, including the
exact-length-1000 case; longer text is cut to its first 1000 characters
followed by the three-dot marker. -/
theorem truncPreview_truncation_law (t : String) :
    (t.length ≤ 1000 → truncPreview t = t) ∧
    (1000 < t.length → truncPreview t = String.mk (t.data.take 1000) ++ "...") := by
  constructor
  · intro h
    unfold truncPreview
    rw [if_neg (by omega : ¬ 1000 < t.length), String.append_empty]
    cases t with
    | mk l =>
      have hl : l.length ≤ 1000 := by simpa using h
      rw [List.take_of_length_le hl]
  · intro h
    unfold truncPreview
    rw [if_pos h]

/-- Witness for claim C4: both branches of the law at concrete texts of
length 2 and 1001. -/
theorem truncPreview_truncation_law_witness :
    truncPreview "ab" = "ab" ∧
    truncPreview longText = String.mk (longText.data.take 1000) ++ "..." :=
  ⟨(truncPreview_truncation_law "ab").1 (by decide),
   (truncPreview_truncation_law longText).2 (by decide)⟩

/-- Claim C5: every success response carries a summaries object with
exactly the three keys short, medium and long in this order, each bound
to a string value. -/
theorem summaries_keys_exactly_three
    (pdfE imgE callModel : String → Except String String)
    (reqFile : Option UploadedFile) (sl : Option String) (r : ProcessingResult) (n : Nat)
    (h : handleUpload pdfE imgE callModel reqFile sl = (Response.success r, n)) :
    r.summaries.map Prod.fst = ["short", "medium", "long"] := by
  obtain ⟨file, text, hfile, hr, hn⟩ :=
    handleUpload_success_shape pdfE imgE callModel reqFile sl r n h
  rw [hr]
  rfl

/-- Witness for claim C5 at a concrete successful run. -/
theorem summaries_keys_exactly_three_witness :
    (ProcessingResult.mk "hello world"
      [("short", "ok"), ("medium", "ok"), ("long", "ok")] "a.pdf" 5).summaries.map Prod.fst
      = ["short", "medium", "long"] :=
  summaries_keys_exactly_three pdfE0 imgE0 aiAllOk (some file0) none
    ⟨"hello world", [("short", "ok"), ("medium", "ok"), ("long", "ok")], "a.pdf", 5⟩ 1
    (by decide)

/-- Claim C6, counterexample: the claim says acceptance holds if and
only if the declared media type is one of PDF, JPEG, PNG and the size is
at most 10 MiB. A file declared application/pdf of 10 bytes satisfies
that, yet the filter rejects it because its file name extension txt does
not match the regex; so the claimed equivalence fails on the code. -/
theorem intake_spec_mismatch :
    specIntakeAccepts "application/pdf" 10 = true ∧
    multerAccepts ⟨"doc.txt", "application/pdf", 10, "uploads/u1"⟩ = false := by
  decide

/-- Claim C6, amended: the filter accepts a candidate file if and only
if one of the patterns jpeg, jpg, png, pdf occurs inside the declared
MIME type string, one of them occurs inside the lowercased extension of
the declared file name, and the byte size is at most 10 MiB. -/
theorem intake_accepts_iff_regex (f : UploadedFile) :
    multerAccepts f = true ↔
      (("jpeg".data <:+: f.mimetype.data ∨ "jpg".data <:+: f.mimetype.data ∨
        "png".data <:+: f.mimetype.data ∨ "pdf".data <:+: f.mimetype.data) ∧
       ("jpeg".data <:+: (toLowerAscii (extname f.originalname)).data ∨
        "jpg".data <:+: (toLowerAscii (extname f.originalname)).data ∨
        "png".data <:+: (toLowerAscii (extname f.originalname)).data ∨
        "pdf".data <:+: (toLowerAscii (extname f.originalname)).data) ∧
       f.size ≤ MAX_FILE_SIZE) := by
  simp [multerAccepts, fileFilter, regexAllowedTypes, substrTest,
    Bool.or_eq_true, Bool.and_eq_true, decide_eq_true_iff, and_assoc, or_assoc]

/-- Witness for claim C6 amended: a conforming PDF upload is accepted,
through the right-to-left direction of the equivalence. -/
theorem intake_accepts_iff_regex_witness :
    multerAccepts ⟨"a.pdf", "application/pdf", 10, "uploads/u2"⟩ = true :=
  (intake_accepts_iff_regex ⟨"a.pdf", "application/pdf", 10, "uploads/u2"⟩).mpr
    ⟨by decide, by decide, by decide⟩

/-- Claim C7, counterexample: the claim bounds originalText by 1001
characters. Extracting a 1001-character text yields a successful run
whose originalText has 1003 characters: the first 1000 characters plus
the three-character ellipsis marker. -/
theorem preview_exceeds_1001 :
    ∃ r : ProcessingResult,
      handleUpload pdfLong imgE0 aiAllOk (some bigPdf) none = (Response.success r, 1) ∧
      1001 < r.originalText.length := by
  refine ⟨⟨truncPreview longText,
    [("short", "ok"), ("medium", "ok"), ("long", "ok")], "big.pdf", 2097152⟩, ?_, ?_⟩
  · decide
  · decide

/-- Claim C7, amended: for every successful run the originalText field
has at most 1003 characters, the 1000-character preview plus the
three-character ellipsis marker when present. -/
theorem originalText_length_le_1003
    (pdfE imgE callModel : String → Except String String)
    (reqFile : Option UploadedFile) (sl : Option String) (r : ProcessingResult) (n : Nat)
    (h : handleUpload pdfE imgE callModel reqFile sl = (Response.success r, n)) :
    r.originalText.length ≤ 1003 := by
  obtain ⟨file, text, hfile, hr, hn⟩ :=
    handleUpload_success_shape pdfE imgE callModel reqFile sl r n h
  rw [hr]
  exact truncPreview_length_le text

/-- Witness for claim C7 amended at a concrete successful run. -/
theorem originalText_length_le_1003_witness :
    (ProcessingResult.mk "hello world"
      [("short", "ok"), ("medium", "ok"), ("long", "ok")] "a.pdf" 5).originalText.length
      ≤ 1003 :=
  originalText_length_le_1003 pdfE0 imgE0 aiAllOk (some file0) none
    ⟨"hello world", [("short", "ok"), ("medium", "ok"), ("long", "ok")], "a.pdf", 5⟩ 1
    (by decide)

/-- Claim C8: the guarded deletion of the Resource Cleanup Manager never
raises, and invoking it twice in succession on the same handle never
raises either: the second invocation finds the handle absent and is a
no-op rather than an error. -/
theorem cleanupFile_idempotent_no_raise (fsys : FileSys) (p : String) :
    ∃ f1 f2, cleanupFile fsys p = Except.ok f1 ∧ cleanupFile f1 p = Except.ok f2 := by
  by_cases h : fsys p
  · refine ⟨fun q => if q = p then false else fsys q,
      fun q => if q = p then false else fsys q, ?_, ?_⟩
    · simp [cleanupFile, existsSync, unlinkSync, h]
    · simp [cleanupFile, existsSync]
  · exact ⟨fsys, fsys, by simp [cleanupFile, existsSync, h],
      by simp [cleanupFile, existsSync, h]⟩

/-- Claim C9: the dispatcher routes by the media type the pipeline
attributes to the document (realised as its lowercased file extension):
PDF documents go to the PDF extractor, JPEG and PNG documents to the
image extractor, and a document with no recognised media type makes the
handler answer the Unsupported file type failure instead of being
processed. -/
theorem dispatch_routes_by_media_type
    (pdfE imgE callModel : String → Except String String)
    (ext p : String) (file : UploadedFile) (sl : Option String) :
    (mediaTypeOfExt ext = some MediaType.pdf →
        dispatchExtract pdfE imgE ext p = some (pdfE p)) ∧
    (mediaTypeOfExt ext = some MediaType.jpeg ∨ mediaTypeOfExt ext = some MediaType.png →
        dispatchExtract pdfE imgE ext p = some (imgE p)) ∧
    (mediaTypeOfExt ext = none → dispatchExtract pdfE imgE ext p = none) ∧
    (mediaTypeOfExt (toLowerAscii (extname file.originalname)) = none →
        handleUpload pdfE imgE callModel (some file) sl =
          (Response.failure 400 "Unsupported file type", 0)) := by
  have key : ∀ e q, (mediaTypeOfExt e = some MediaType.pdf →
        dispatchExtract pdfE imgE e q = some (pdfE q)) ∧
      (mediaTypeOfExt e = some MediaType.jpeg ∨ mediaTypeOfExt e = some MediaType.png →
        dispatchExtract pdfE imgE e q = some (imgE q)) ∧
      (mediaTypeOfExt e = none → dispatchExtract pdfE imgE e q = none) := by
    intro e q
    unfold mediaTypeOfExt dispatchExtract
    split_ifs with h1 h2 h3 <;> simp_all
  refine ⟨(key ext p).1, (key ext p).2.1, (key ext p).2.2, ?_⟩
  intro h
  have hd := (key (toLowerAscii (extname file.originalname)) file.path).2.2 h
  simp only [handleUpload]
  rw [hd]

/-- Witness for claim C9: concrete routing of a png extension to the
image extractor, of a pdf extension to the PDF extractor, and the
defensive failure on a gif upload. -/
theorem dispatch_routes_by_media_type_witness :
    dispatchExtract pdfE0 imgE0 ".png" "uploads/p1" = some (imgE0 "uploads/p1") ∧
    dispatchExtract pdfE0 imgE0 ".pdf" "uploads/p1" = some (pdfE0 "uploads/p1") ∧
    handleUpload pdfE0 imgE0 aiAllOk (some gifFile) none =
      (Response.failure 400 "Unsupported file type", 0) :=
  ⟨(dispatch_routes_by_media_type pdfE0 imgE0 aiAllOk ".png" "uploads/p1" gifFile none).2.1
      (Or.inr (by decide)),
   (dispatch_routes_by_media_type pdfE0 imgE0 aiAllOk ".pdf" "uploads/p1" gifFile none).1
      (by decide),
   (dispatch_routes_by_media_type pdfE0 imgE0 aiAllOk ".pdf" "uploads/p1" gifFile none).2.2.2
      (by decide)⟩

/-- Claim C10: the response of the handler does not depend on the
summaryLength field of the request body: the field is read with its
default and never used, so two requests differing only in that field
(either may also omit it) produce identical responses and identical
cleanup behaviour. -/
theorem response_independent_of_summaryLength
    (pdfE imgE callModel : String → Except String String)
    (reqFile : Option UploadedFile) (sl1 sl2 : Option String) :
    handleUpload pdfE imgE callModel reqFile sl1 =
      handleUpload pdfE imgE callModel reqFile sl2 := by
  cases reqFile <;> rfl

end DocSummarizer
